import Mathlib

/-!
Verification of the lead-to-call correlation and call-outcome reconciliation
core of the pipedrive webhook relay.

The Go source is embedded shallowly:
- pure helpers (`extractPhoneFromPerson`, `storeCallMapping`, `getCallMapping`,
  the note builders) become Lean functions;
- the outcome of every outbound HTTP call is supplied by an environment
  record, and each outbound request the processor issues is recorded in an
  explicit effect trace;
- the process-local `callMappings` map becomes a function
  `String → Option CallMapping`, threaded through the processors;
- `fmt.Sprintf` with `%d` and `strconv.Atoi` (Go standard library) are
  embedded as explicit decimal print/parse functions.
-/

namespace Pipedrive

/-- Phone (or email) entry of a Pipedrive person: `PipedrivePhone` in the
source, with `label`, `value` and `primary` JSON fields. -/
structure PipedrivePhone where
  label : String
  value : String
  primary : Bool
deriving Repr, DecidableEq

/-- Person record returned by the Pipedrive API: `PipedrivePerson` in the
source (`id`, `name`, `email`, `phone`). -/
structure PipedrivePerson where
  id : Int
  name : String
  email : List PipedrivePhone
  phone : List PipedrivePhone
deriving Repr, DecidableEq

/-- Embedding of `strings.ReplaceAll(s, pat, "")` for a one-character
pattern `pat`: deleting every occurrence of a single character is filtering
that character out of the string. -/
def removeAllChar (s : String) (c : Char) : String :=
  String.mk (s.data.filter (fun a => a ≠ c))

/-- Embedding of `strings.HasPrefix(s, p)`: `p` is an initial segment
of `s`. -/
def strStartsWith (s p : String) : Bool :=
  p.data.isPrefixOf s.data

/-- Embedding of `extractPhoneFromPerson` (method on `PipedriveService`):
take the first phone value, remove spaces, dashes and parentheses, then
prefix `+1` when the number does not start with `+`, else prefix `+` when it
starts with `1` but not with `+1`. The Go `nil`/length guard becomes a match
on the phone list. -/
def extractPhoneFromPerson (person : PipedrivePerson) : String :=
  match person.phone with
  | [] => ""
  | entry :: _ =>
    let phoneNumber := entry.value
    let phoneNumber :=
      removeAllChar (removeAllChar (removeAllChar (removeAllChar phoneNumber ' ') '-') '(') ')'
    if ¬ strStartsWith phoneNumber "+" then
      "+1" ++ phoneNumber
    else if strStartsWith phoneNumber "1" ∧ ¬ strStartsWith phoneNumber "+1" then
      "+" ++ phoneNumber
    else
      phoneNumber

/-- Entry of the correlation store: `CallMapping` in the source. `Timestamp`
(`time.Now()` at store time) is the clock value passed in by the caller. -/
structure CallMapping where
  personName : String
  phoneNumber : String
  leadTitle : String
  personID : Int
  timestamp : Nat
deriving Repr, DecidableEq

/-- The `callMappings map[string]CallMapping` field of `PipedriveService`,
embedded as a lookup function. -/
def CallMap : Type := String → Option CallMapping

/-- The everywhere-empty correlation store (`make(map[string]CallMapping)`
in `NewPipedriveService`). -/
def emptyStore : CallMap := fun _ => none

/-- Embedding of `storeCallMapping`: Go map assignment
`p.callMappings[callID] = CallMapping{...}` with `Timestamp: time.Now()`;
`now` is the clock reading. -/
def storeCallMapping (st : CallMap) (callID personName phoneNumber leadTitle : String)
    (personID : Int) (now : Nat) : CallMap :=
  fun k =>
    if k = callID then
      some { personName := personName, phoneNumber := phoneNumber,
             leadTitle := leadTitle, personID := personID, timestamp := now }
    else st k

/-- Embedding of `getCallMapping`: Go map lookup `mapping, exists :=
p.callMappings[callID]`, with the `(zero value, false)` miss case embedded
as `none`. -/
def getCallMapping (st : CallMap) (callID : String) : Option CallMapping :=
  st callID

/-- Configuration relevant to the processors: the `Config` fields consulted
by `HasPipedriveConfig` and `HasRetellConfig`. -/
structure Config where
  pipedriveAPIKey : String
  retellAPIKey : String
  retellAssistantID : String
deriving Repr, DecidableEq

/-- Embedding of `Config.HasPipedriveConfig`: the Pipedrive API key is
non-empty. -/
def Config.hasPipedriveConfig (c : Config) : Bool :=
  c.pipedriveAPIKey != ""

/-- Embedding of `Config.HasRetellConfig`: both the Retell API key and the
assistant id are non-empty. -/
def Config.hasRetellConfig (c : Config) : Bool :=
  c.retellAPIKey != "" && c.retellAssistantID != ""

/-- The `data` object of `PipedriveLeadWebhookPayload` (fields used by the
handler and the processor: `id`, `title`, `person_id`). -/
structure PipedriveLeadData where
  id : String
  title : String
  personID : Int
deriving Repr, DecidableEq

/-- The `meta` object of `PipedriveLeadWebhookPayload` (`action`). -/
structure PipedriveLeadMeta where
  action : String
deriving Repr, DecidableEq

/-- Inbound lead webhook body: `PipedriveLeadWebhookPayload` in the
source. -/
structure PipedriveLeadWebhookPayload where
  data : PipedriveLeadData
  meta : PipedriveLeadMeta
deriving Repr, DecidableEq

/-- The `activityData map[string]interface` value POSTed to `/activities`,
embedded as a record of the keys the source writes. `duration` is `none`
for the lead-initiation activity, which has no `duration` key. -/
structure ActivityData where
  subject : String
  actType : String
  personID : Int
  duration : Option String
  note : String
  done : Int
  dueDate : String
  dueTime : String
deriving Repr, DecidableEq

/-- The `noteData` value POSTed to `/notes` (`content`, `person_id`). -/
structure NoteData where
  content : String
  personID : Int
deriving Repr, DecidableEq

/-- One outbound request or store write issued by a processor. The effect
trace is the observation mechanism of the embedding: each constructor
records one `makePipedriveRequest`, Retell call, or correlation-store
write performed by the Go code, in program order. -/
inductive Effect where
  | getPerson (personID : Int)
  | createRetellCall (toNumber personName leadTitle : String)
  | searchPersonsByPhone (term : String)
  | createPerson (name : String) (phoneValues : List String)
  | updatePersonCallData (personID : Int) (transcript duration callDate : String)
  | postActivity (a : ActivityData)
  | postNote (n : NoteData)
  | storeMapping (callID : String) (m : CallMapping)
deriving Repr, DecidableEq

/-- Effect classifier: outbound call-creation requests
(`CreateRetellCall`). -/
def Effect.isOutboundCall : Effect → Bool
  | .createRetellCall _ _ _ => true
  | _ => false

/-- Effect classifier: correlation-store writes (`storeCallMapping`). -/
def Effect.isStoreMapping : Effect → Bool
  | .storeMapping _ _ => true
  | _ => false

/-- Effect classifier: activity-creation requests (`POST /activities`). -/
def Effect.isPostActivity : Effect → Bool
  | .postActivity _ => true
  | _ => false

/-- Effect classifier: contact-creation requests (`POST /persons`). -/
def Effect.isCreatePerson : Effect → Bool
  | .createPerson _ _ => true
  | _ => false

/-- Outcomes of the outbound calls `ProcessPipedriveLead` makes, plus the
clock. `getPersonResult` is the outcome of `GetPersonByID`,
`createCallResult` the outcome of `CreateRetellCall` (`ok` carries the
returned `call_id`), `activityPostOk` whether the tracking-activity POST
request succeeds. `now` is `time.Now().Unix()`; `nowDate` and
`nowTimePlusFive` are the formatted due date and due time the source
computes from the clock. -/
structure LeadEnv where
  getPersonResult : Except String PipedrivePerson
  createCallResult : Except String String
  activityPostOk : Bool
  now : Nat
  nowDate : String
  nowTimePlusFive : String

/-- Result of running a processor: the Go `error` return (`.ok` for `nil`),
the correlation store after the run, and the trace of effects issued. -/
structure ProcResult where
  result : Except String Unit
  store : CallMap
  effects : List Effect

/-- Embedding of `ProcessPipedriveLead`. Branch structure follows the
source: non-`create` actions return `nil` at once; with both configs
present the real-integration branch fetches the person (fatal on failure),
skips silently when no phone is extracted, requests the Retell call,
substitutes the placeholder `"failed-" + unix-timestamp` identifier when
that request fails, unconditionally stores the call mapping, and finally
POSTs a pending tracking activity whose failure is only logged. Without
full config the simulation branch only logs. -/
def ProcessPipedriveLead (cfg : Config) (env : LeadEnv) (st : CallMap)
    (payload : PipedriveLeadWebhookPayload) : ProcResult :=
  if payload.meta.action ≠ "create" then
    { result := .ok (), store := st, effects := [] }
  else if cfg.hasPipedriveConfig && cfg.hasRetellConfig then
    match env.getPersonResult with
    | .error e =>
      { result := .error ("failed to get person details: " ++ e), store := st,
        effects := [.getPerson payload.data.personID] }
    | .ok person =>
      let phoneNumber := extractPhoneFromPerson person
      if phoneNumber = "" then
        { result := .ok (), store := st, effects := [.getPerson payload.data.personID] }
      else
        let callID :=
          match env.createCallResult with
          | .error _ => "failed-" ++ toString env.now
          | .ok cid => cid
        let mapping : CallMapping :=
          { personName := person.name, phoneNumber := phoneNumber,
            leadTitle := payload.data.title, personID := payload.data.personID,
            timestamp := env.now }
        let activity : ActivityData :=
          { subject := "AI Call Initiated - Lead: " ++ payload.data.title,
            actType := "call",
            personID := payload.data.personID,
            duration := none,
            note := "Retell AI call initiated for lead: " ++ payload.data.title ++
              "\nCall ID: " ++ callID ++ "\nPhone: " ++ phoneNumber,
            done := 0,
            dueDate := env.nowDate,
            dueTime := env.nowTimePlusFive }
        { result := .ok (),
          store := storeCallMapping st callID person.name phoneNumber
            payload.data.title payload.data.personID env.now,
          effects := [.getPerson payload.data.personID,
                      .createRetellCall phoneNumber person.name payload.data.title,
                      .storeMapping callID mapping,
                      .postActivity activity] }
  else
    { result := .ok (), store := st, effects := [] }

/-- HTTP response shape produced by the handlers (`WebhookResponse` plus
the status code passed to `c.JSON`). -/
structure WebhookResponse where
  status : Nat
  success : Bool
  message : String
deriving Repr, DecidableEq

/-- Outcome of running a webhook handler: the HTTP response, and the
processor run when the handler delegated (`none` when validation rejected
the request before the processor was invoked). -/
structure HandlerOutcome where
  response : WebhookResponse
  processed : Option ProcResult

/-- Embedding of `PipedriveLeadWebhookHandler` (after JSON binding):
reject with 400 when `data.id` is empty or `data.person_id` is zero,
otherwise delegate to `ProcessPipedriveLead` and answer 500 on error,
200 on success. -/
def PipedriveLeadWebhookHandler (cfg : Config) (env : LeadEnv) (st : CallMap)
    (payload : PipedriveLeadWebhookPayload) : HandlerOutcome :=
  if payload.data.id = "" ∨ payload.data.personID = 0 then
    { response := { status := 400, success := false,
                    message := "Missing required fields: data.id and data.person_id" },
      processed := none }
  else
    let r := ProcessPipedriveLead cfg env st payload
    match r.result with
    | .error e =>
      { response := { status := 500, success := false,
                      message := "Failed to process lead: " ++ e },
        processed := some r }
    | .ok _ =>
      { response := { status := 200, success := true,
                      message := "Pipedrive lead webhook processed successfully" },
        processed := some r }

end Pipedrive

namespace Pipedrive

/-- C1 check helper: a person whose only phone entry is the given value. -/
def personWithPhone (v : String) : PipedrivePerson :=
  { id := 1, name := "Test", email := [], phone := [{ label := "work", value := v, primary := true }] }

/-- Sample configuration with all credentials present. -/
def sampleCfg : Config :=
  { pipedriveAPIKey := "pd-key", retellAPIKey := "rt-key", retellAssistantID := "asst-1" }

/-- Sample lead data for witnesses. -/
def sampleLeadData : PipedriveLeadData :=
  { id := "lead-1", title := "Big Deal", personID := 139 }

/-- Sample lead payload with action `create`. -/
def samplePayloadCreate : PipedriveLeadWebhookPayload :=
  { data := sampleLeadData, meta := { action := "create" } }

/-- Sample lead payload with action `update`. -/
def samplePayloadUpdate : PipedriveLeadWebhookPayload :=
  { data := sampleLeadData, meta := { action := "update" } }

/-- Sample lead payload failing validation (empty `data.id`). -/
def samplePayloadInvalid : PipedriveLeadWebhookPayload :=
  { data := { id := "", title := "Big Deal", personID := 139 }, meta := { action := "create" } }

/-- Sample person with one phone entry. -/
def samplePersonJane : PipedrivePerson :=
  { id := 139, name := "Jane", email := [],
    phone := [{ label := "work", value := "+1 212-555-0100", primary := true }] }

/-- Sample person with an empty phone list. -/
def samplePersonNoPhone : PipedrivePerson :=
  { id := 139, name := "Jane", email := [], phone := [] }

/-- Sample environment in which every outbound call succeeds. -/
def sampleLeadEnvOk : LeadEnv :=
  { getPersonResult := .ok samplePersonJane, createCallResult := .ok "call-abc",
    activityPostOk := true, now := 1700000000, nowDate := "2023-11-14",
    nowTimePlusFive := "22:18:20" }

/-- Sample environment whose fetched person has no phone number. -/
def sampleLeadEnvNoPhone : LeadEnv :=
  { sampleLeadEnvOk with getPersonResult := .ok samplePersonNoPhone }

/-- Sample environment in which the Retell call-creation request fails. -/
def sampleLeadEnvCallFail : LeadEnv :=
  { sampleLeadEnvOk with createCallResult := .error "HTTP 500" }

/-- Little-endian decimal digits of a natural number; `0` has no digits. -/
def natDigitsRev : Nat → List Nat
  | 0 => []
  | n + 1 => (n + 1) % 10 :: natDigitsRev ((n + 1) / 10)
decreasing_by exact Nat.div_lt_self (Nat.succ_pos n) (by decide)

/-- Decimal character representation of a natural number, most significant
digit first. -/
def natToDecChars (n : Nat) : List Char :=
  if n = 0 then ['0'] else ((natDigitsRev n).map Nat.digitChar).reverse

/-- Embedding of `fmt.Sprintf` with the `%d` verb on a Go `int`
(`fmt.Sprintf("%d", person.ID)` in `FindOrCreateContactByPhone`). -/
def formatInt : Int → String
  | .ofNat m => String.mk (natToDecChars m)
  | .negSucc m => String.mk ('-' :: natToDecChars (m + 1))

/-- Numeric value of a decimal digit character. -/
def digitVal (c : Char) : Nat := c.toNat - 48

/-- Decimal parse of a character list: defined exactly when the list is a
non-empty run of digits. -/
def parseNatChars (l : List Char) : Option Nat :=
  if l ≠ [] ∧ l.all (fun c => c.isDigit) then
    some (l.foldl (fun a c => 10 * a + digitVal c) 0)
  else none

/-- Embedding of `strconv.Atoi` on the shapes the source produces: an
optional minus sign followed by decimal digits; anything else is an
error (`none`). -/
def atoi (s : String) : Option Int :=
  match s.data with
  | [] => none
  | c :: rest =>
    if c = '-' then (parseNatChars rest).map (fun v => -(v : Int))
    else (parseNatChars (c :: rest)).map (fun v => (v : Int))

/-- The `Contact` struct of the source (`ID`, `Name`, `Email`, `Phone`,
`DNC`). -/
structure Contact where
  id : String
  name : String
  email : String
  phone : String
  dnc : Bool
deriving Repr, DecidableEq

/-- Search response of `GET /persons/search`:
`PipedrivePersonSearchResponse` (`success`, `items`). -/
structure PipedrivePersonSearchResponse where
  success : Bool
  items : List PipedrivePerson
deriving Repr, DecidableEq

/-- Response of `POST /persons`: `PipedrivePersonResponse` (`success`,
`data`, the latter nullable). -/
structure PipedrivePersonResponse where
  success : Bool
  data : Option PipedrivePerson
deriving Repr, DecidableEq

/-- Response of `POST /activities`: `PipedriveActivityResponse` (`success`
and the created activity id). -/
structure PipedriveActivityResponse where
  success : Bool
  dataID : Int
deriving Repr, DecidableEq

/-- First `value` of a phone or email list, `""` when the list is empty:
the repeated `if len(xs) > 0 { v = xs[0].Value }` snippet of the source. -/
def firstValue : List PipedrivePhone → String
  | [] => ""
  | e :: _ => e.value

/-- The `Contact` the source assembles from a `PipedrivePerson`
(`ID: fmt.Sprintf("%d", person.ID)`, first phone and email values,
`DNC: false`). -/
def contactOfPerson (person : PipedrivePerson) : Contact :=
  { id := formatInt person.id, name := person.name,
    email := firstValue person.email, phone := firstValue person.phone,
    dnc := false }

/-- Outcomes of the outbound calls made while finding or creating a
contact by phone: the search request and the create request; `uuid` is the
identifier `uuid.New().String()` would produce in simulation mode. -/
structure PhoneLookupEnv where
  searchResult : Except String PipedrivePersonSearchResponse
  createResult : Except String PipedrivePersonResponse
  uuid : String

/-- Create path of `FindOrCreateContactByPhone`: POST `/persons` with
`name: "Unknown Caller"` and the given phone value, then check `success`
and the nullable `data` (the source errors when either is missing). -/
def createUnknownContact (env : PhoneLookupEnv) (phone : String) :
    Except String Contact × List Effect :=
  let effs := [Effect.searchPersonsByPhone phone,
               Effect.createPerson "Unknown Caller" [phone]]
  match env.createResult with
  | .error e => (.error ("failed to create contact: " ++ e), effs)
  | .ok createResult =>
    match createResult.data, createResult.success with
    | some person, true => (.ok (contactOfPerson person), effs)
    | _, _ => (.error "failed to create contact in Pipedrive", effs)

/-- Embedding of `FindOrCreateContactByPhone`: with Pipedrive configured,
search `/persons/search?term=<phone>&fields=phone`; on `success` with a
non-empty `items` list return the first hit as a `Contact`, otherwise
create an `Unknown Caller` contact with that phone value. Without
configuration the simulation branch fabricates a contact with a fresh
uuid. -/
def FindOrCreateContactByPhone (cfg : Config) (env : PhoneLookupEnv) (phone : String) :
    Except String Contact × List Effect :=
  if cfg.hasPipedriveConfig then
    match env.searchResult with
    | .error e => (.error ("failed to search contact: " ++ e), [.searchPersonsByPhone phone])
    | .ok searchResult =>
      match searchResult.items, searchResult.success with
      | person :: _, true => (.ok (contactOfPerson person), [.searchPersonsByPhone phone])
      | _, _ => createUnknownContact env phone
  else
    (.ok { id := env.uuid, name := "Unknown Caller", email := "", phone := phone, dnc := false },
     [])

/-- The `call_analysis` object of a Retell `call_analyzed` payload. -/
structure CallAnalysis where
  callSummary : String
  userSentiment : String
  callSuccessful : Bool
  inVoicemail : Bool
deriving Repr, DecidableEq

/-- The `call` object of a Retell `call_analyzed` payload (fields the
processor and note builders read). -/
structure RetellCallInfo where
  callID : String
  agentName : String
  agentVersion : Int
  callType : String
  callStatus : String
  durationMs : Nat
  transcript : String
  disconnectionReason : String
  callAnalysis : CallAnalysis
  recordingURL : String
  recordingMultiChannelURL : String
  publicLogURL : String
deriving Repr, DecidableEq

/-- Inbound `call_analyzed` webhook body: `RetellCallAnalyzedPayload`. -/
structure RetellCallAnalyzedPayload where
  event : String
  call : RetellCallInfo
deriving Repr, DecidableEq

/-- Go `%02d`: decimal with a leading zero below ten. -/
def pad2 (n : Nat) : String :=
  if n < 10 then "0" ++ String.mk (natToDecChars n) else String.mk (natToDecChars n)

/-- The `HH:MM:SS` duration string `ProcessRetellCallAnalyzed` computes
from `DurationMs`. -/
def formatDuration (durationMs : Nat) : String :=
  let durationSeconds := durationMs / 1000
  pad2 (durationSeconds / 3600) ++ ":" ++ pad2 ((durationSeconds % 3600) / 60) ++ ":" ++
    pad2 (durationSeconds % 60)

/-- Go `%t`: `true` or `false`. -/
def fmtBool (b : Bool) : String := if b then "true" else "false"

/-- Embedding of `buildCallAnalyzedNote` (fallback note). `startLong` and
`endLong` are the humane-format start and end times the source renders
from the call timestamps. -/
def buildCallAnalyzedNote (payload : RetellCallAnalyzedPayload)
    (startLong endLong duration : String) : String :=
  "AI Call Analysis Report\n\nCall Details:\n• Call ID: " ++ payload.call.callID ++
  "\n• Agent: " ++ payload.call.agentName ++ " (v" ++ formatInt payload.call.agentVersion ++ ")" ++
  "\n• Type: " ++ payload.call.callType ++
  "\n• Status: " ++ payload.call.callStatus ++
  "\n• Duration: " ++ duration ++
  "\n• Start: " ++ startLong ++
  "\n• End: " ++ endLong ++
  "\n• Disconnection: " ++ payload.call.disconnectionReason ++
  "\n\nCall Analysis:\n• Summary: " ++ payload.call.callAnalysis.callSummary ++
  "\n• User Sentiment: " ++ payload.call.callAnalysis.userSentiment ++
  "\n• Call Successful: " ++ fmtBool payload.call.callAnalysis.callSuccessful ++
  "\n• In Voicemail: " ++ fmtBool payload.call.callAnalysis.inVoicemail ++
  "\n\nTranscript:\n" ++ payload.call.transcript ++
  "\n\nAdditional Resources:\n• Recording: " ++ payload.call.recordingURL ++
  "\n• Multi-Channel Recording: " ++ payload.call.recordingMultiChannelURL ++
  "\n• Public Log: " ++ payload.call.publicLogURL

/-- Embedding of `buildCallAnalyzedNoteWithPerson` (resolved-mapping note).
`startDate`, `startClock` and `endClock` are the date and clock renderings
of the call timestamps. -/
def buildCallAnalyzedNoteWithPerson (payload : RetellCallAnalyzedPayload)
    (startDate startClock endClock duration personName leadTitle phoneNumber : String) : String :=
  "🤖 AI Call Analysis Complete\n\n👤 Person: " ++ personName ++
  "\n📞 Phone: " ++ phoneNumber ++
  "\n🎯 Lead: " ++ leadTitle ++
  "\n📅 Date: " ++ startDate ++
  "\n⏰ Time: " ++ startClock ++ " - " ++ endClock ++
  "\n⏱️ Duration: " ++ duration ++
  "\n\n📊 Analysis Summary:\n" ++ payload.call.callAnalysis.callSummary ++
  "\n\n😊 Sentiment: " ++ payload.call.callAnalysis.userSentiment ++
  "\n✅ Call Successful: " ++ fmtBool payload.call.callAnalysis.callSuccessful ++
  "\n📝 Disconnection Reason: " ++ payload.call.disconnectionReason ++
  "\n\n🤖 Agent: " ++ payload.call.agentName ++ " (v" ++ formatInt payload.call.agentVersion ++ ")" ++
  "\n📋 Call ID: " ++ payload.call.callID ++
  "\n\n📄 Full Transcript:\n" ++ payload.call.transcript

/-- Outcomes of the outbound calls `ProcessRetellCallAnalyzed` makes:
the contact lookup (fallback path), the person custom-field update, the
activity POST (request plus decode on the resolved path, request only on
the fallback path), and the transcript-note POST; plus the formatted
renderings of the call start and end timestamps. -/
structure AnalyzedEnv where
  lookup : PhoneLookupEnv
  updatePersonOk : Bool
  activityResult : Except String PipedriveActivityResponse
  fallbackActivityReqOk : Bool
  noteReqOk : Bool
  startDate : String
  startClock : String
  endClock : String
  startLong : String
  endLong : String

/-- The completed activity `ProcessRetellCallAnalyzed` builds on the
fallback (store-miss) path for the given contact person id. -/
def fallbackActivityData (env : AnalyzedEnv) (payload : RetellCallAnalyzedPayload)
    (personID : Int) : ActivityData :=
  let duration := formatDuration payload.call.durationMs
  { subject := "AI Call Analyzed - " ++ payload.call.agentName,
    actType := "call", personID := personID,
    duration := some duration,
    note := buildCallAnalyzedNote payload env.startLong env.endLong duration,
    done := 1, dueDate := env.startDate, dueTime := env.startClock }

/-- The completed activity `ProcessRetellCallAnalyzed` builds on the
resolved path from the stored call mapping. -/
def resolvedActivityData (env : AnalyzedEnv) (payload : RetellCallAnalyzedPayload)
    (callMapping : CallMapping) : ActivityData :=
  let duration := formatDuration payload.call.durationMs
  { subject := "AI Call Analyzed - " ++ payload.call.agentName,
    actType := "call", personID := callMapping.personID,
    duration := some duration,
    note := buildCallAnalyzedNoteWithPerson payload env.startDate env.startClock
      env.endClock duration callMapping.personName callMapping.leadTitle
      callMapping.phoneNumber,
    done := 1, dueDate := env.startDate, dueTime := env.startClock }

/-- Embedding of `ProcessRetellCallAnalyzed`. With Pipedrive configured:
resolve the call id against the correlation store. On a hit, update the
person custom fields (failure only logged), POST a completed activity
carrying the stored person id (request, decode or `success=false` failures
are fatal), then best-effort POST a transcript note. On a miss, fall back
to `FindOrCreateContactByPhone("Unknown")` (failure fatal), parse the
contact id, update custom fields (failure only logged) and POST a completed
activity for that contact (request failure fatal). Without configuration
the simulation branch only logs. The store is never written. -/
def ProcessRetellCallAnalyzed (cfg : Config) (env : AnalyzedEnv) (st : CallMap)
    (payload : RetellCallAnalyzedPayload) : ProcResult :=
  if cfg.hasPipedriveConfig then
    let duration := formatDuration payload.call.durationMs
    match getCallMapping st payload.call.callID with
    | none =>
      match FindOrCreateContactByPhone cfg env.lookup "Unknown" with
      | (.error e, effs) =>
        { result := .error ("failed to find/create contact: " ++ e), store := st, effects := effs }
      | (.ok contact, effs) =>
        match atoi contact.id with
        | none => { result := .error "invalid contact ID", store := st, effects := effs }
        | some personID =>
          let effs1 := effs ++
            [Effect.updatePersonCallData personID payload.call.transcript duration env.startDate,
             Effect.postActivity (fallbackActivityData env payload personID)]
          if env.fallbackActivityReqOk then
            { result := .ok (), store := st, effects := effs1 }
          else
            { result := .error "failed to create call activity", store := st, effects := effs1 }
    | some callMapping =>
      let personID := callMapping.personID
      let effs0 :=
        [Effect.updatePersonCallData personID payload.call.transcript duration env.startDate,
         Effect.postActivity (resolvedActivityData env payload callMapping)]
      match env.activityResult with
      | .error e =>
        { result := .error ("failed to create call activity: " ++ e), store := st, effects := effs0 }
      | .ok activityResult =>
        if activityResult.success then
          let note : NoteData :=
            { content := "Call Analysis:\n\n" ++ payload.call.callAnalysis.callSummary ++
                "\n\nFull Transcript:\n" ++ payload.call.transcript,
              personID := personID }
          { result := .ok (), store := st, effects := effs0 ++ [Effect.postNote note] }
        else
          { result := .error "failed to create call activity in Pipedrive", store := st,
            effects := effs0 }
  else
    { result := .ok (), store := st, effects := [] }

/-- Sample `call_analyzed` payload for witnesses. -/
def sampleAnalyzedPayload : RetellCallAnalyzedPayload :=
  { event := "call_analyzed",
    call := { callID := "call-abc", agentName := "Ava", agentVersion := 2,
              callType := "phone_call", callStatus := "ended", durationMs := 65000,
              transcript := "hello", disconnectionReason := "user_hangup",
              callAnalysis := { callSummary := "ok", userSentiment := "Positive",
                                callSuccessful := true, inVoicemail := false },
              recordingURL := "r", recordingMultiChannelURL := "rm",
              publicLogURL := "p" } }

/-- Sample correlation store holding the mapping for `call-abc`. -/
def sampleStoreWithMapping : CallMap :=
  storeCallMapping emptyStore "call-abc" "Jane" "+12125550100" "Big Deal" 139 1700000000

/-- Sample contact-lookup environment whose search finds one person. -/
def samplePhoneLookupFound : PhoneLookupEnv :=
  { searchResult := .ok { success := true, items := [samplePersonJane] },
    createResult := .ok { success := true, data := some samplePersonJane },
    uuid := "uuid-1" }

/-- Sample contact-lookup environment whose search matches nothing. -/
def samplePhoneLookupEmpty : PhoneLookupEnv :=
  { samplePhoneLookupFound with searchResult := .ok { success := true, items := [] } }

/-- Sample analyzed-call environment in which every outbound call
succeeds. -/
def sampleAnalyzedEnv : AnalyzedEnv :=
  { lookup := samplePhoneLookupFound, updatePersonOk := true,
    activityResult := .ok { success := true, dataID := 7 },
    fallbackActivityReqOk := true, noteReqOk := true,
    startDate := "2023-11-14", startClock := "22:13:20", endClock := "22:14:25",
    startLong := "Tuesday, November 14, 2023 at 10:13 PM",
    endLong := "Tuesday, November 14, 2023 at 10:14 PM" }

/-- Sample analyzed-call environment whose contact search matches
nothing. -/
def sampleAnalyzedEnvEmptySearch : AnalyzedEnv :=
  { sampleAnalyzedEnv with lookup := samplePhoneLookupEmpty }

end Pipedrive

open Pipedrive

theorem strAppend_data (a b : String) : (a ++ b).data = a.data ++ b.data := by
  cases a
  cases b
  rfl

theorem listIsPrefixOf_append (l t : List Char) : l.isPrefixOf (l ++ t) = true := by
  induction l with
  | nil => simp [List.isPrefixOf]
  | cons a as ih => simp [List.isPrefixOf, ih]

theorem strStartsWith_append (p s : String) : strStartsWith (p ++ s) p = true := by
  simp [strStartsWith, strAppend_data, listIsPrefixOf_append]

theorem strAppend_ne_empty (a b : String) (h : a.data ≠ []) : (a ++ b) ≠ "" := by
  intro hc
  have h2 : a.data ++ b.data = ([] : List Char) := by
    have h3 := congrArg String.data hc
    rw [strAppend_data] at h3
    exact h3
  exact h (List.append_eq_nil.mp h2).1

/-- C1: the claim says `"15551234567"` normalizes to `"+15551234567"`.
On the code it does not: the first branch (`+1` prefixing) already fires for
every number without a leading `+`, so the leading-`1` branch of
`extractPhoneFromPerson` is unreachable and the code yields
`"+115551234567"`. This theorem evaluates the embedded code at that failing
input. -/
theorem extractPhone_leadingOne_divergence :
    Pipedrive.extractPhoneFromPerson (Pipedrive.personWithPhone "15551234567") = "+115551234567" := by
  decide

/-- C5: storing a mapping with `storeCallMapping` and resolving the same
identifier with `getCallMapping` returns the entry (`found = true`) with
exactly the stored person name, phone number, lead title and person id. -/
theorem storeCallMapping_getCallMapping_roundtrip
    (st : Pipedrive.CallMap) (callID personName phoneNumber leadTitle : String)
    (personID : Int) (now : Nat) :
    Pipedrive.getCallMapping
        (Pipedrive.storeCallMapping st callID personName phoneNumber leadTitle personID now)
        callID =
      some { personName := personName, phoneNumber := phoneNumber,
             leadTitle := leadTitle, personID := personID, timestamp := now } := by
  simp [Pipedrive.getCallMapping, Pipedrive.storeCallMapping]

/-- C6: a lead-created event whose `meta.action` is not `"create"` is a
successful no-op: no outbound call request is made, the correlation store
is left completely unchanged, and no error is returned. -/
theorem processLead_nonCreate_noop (cfg : Config) (env : LeadEnv)
    (st : CallMap) (payload : PipedriveLeadWebhookPayload)
    (h : payload.meta.action ≠ "create") :
    ProcessPipedriveLead cfg env st payload =
      { result := .ok (), store := st, effects := [] } := by
  simp [ProcessPipedriveLead, h]

/-- Witness for C6 at a concrete `update` event. -/
theorem processLead_nonCreate_noop_witness :
    ProcessPipedriveLead sampleCfg sampleLeadEnvOk emptyStore samplePayloadUpdate =
      { result := .ok (), store := emptyStore, effects := [] } :=
  processLead_nonCreate_noop _ _ _ _ (by decide)

/-- C7: a lead-created event with action `create` whose fetched person has
an empty phone list makes no outbound call request, leaves the correlation
store unchanged, and succeeds; the handler responds HTTP 200. -/
theorem processLead_emptyPhoneList_noop (cfg : Config) (env : LeadEnv)
    (st : CallMap) (payload : PipedriveLeadWebhookPayload) (person : PipedrivePerson)
    (hid : payload.data.id ≠ "") (hpid : payload.data.personID ≠ 0)
    (hact : payload.meta.action = "create")
    (hpd : cfg.hasPipedriveConfig = true) (hrt : cfg.hasRetellConfig = true)
    (hperson : env.getPersonResult = .ok person)
    (hphone : person.phone = []) :
    ProcessPipedriveLead cfg env st payload =
      { result := .ok (), store := st, effects := [Effect.getPerson payload.data.personID] } ∧
    (PipedriveLeadWebhookHandler cfg env st payload).response.status = 200 := by
  have hproc : ProcessPipedriveLead cfg env st payload =
      { result := .ok (), store := st, effects := [Effect.getPerson payload.data.personID] } := by
    simp [ProcessPipedriveLead, hact, hpd, hrt, hperson, extractPhoneFromPerson, hphone]
  refine ⟨hproc, ?_⟩
  simp [PipedriveLeadWebhookHandler, hid, hpid, hproc]

/-- Witness for C7 at a concrete event whose person has no phone entry. -/
theorem processLead_emptyPhoneList_noop_witness :
    ProcessPipedriveLead sampleCfg sampleLeadEnvNoPhone emptyStore samplePayloadCreate =
      { result := .ok (), store := emptyStore, effects := [Effect.getPerson 139] } ∧
    (PipedriveLeadWebhookHandler sampleCfg sampleLeadEnvNoPhone emptyStore
        samplePayloadCreate).response.status = 200 :=
  processLead_emptyPhoneList_noop _ _ _ _ _ (by decide) (by decide) rfl
    (by decide) (by decide) rfl rfl

/-- C4: a lead-created `create` event with a non-empty normalized phone
number whose Retell call-creation request fails still succeeds, and stores
exactly one correlation record, keyed by the non-empty synthetic identifier
`"failed-" + unix-timestamp`, which carries the `failed-` marker that
distinguishes it from a real call id. -/
theorem processLead_callFailure_placeholder (cfg : Config) (env : LeadEnv)
    (st : CallMap) (payload : PipedriveLeadWebhookPayload) (person : PipedrivePerson)
    (e : String)
    (hact : payload.meta.action = "create")
    (hpd : cfg.hasPipedriveConfig = true) (hrt : cfg.hasRetellConfig = true)
    (hperson : env.getPersonResult = .ok person)
    (hphone : extractPhoneFromPerson person ≠ "")
    (hfail : env.createCallResult = .error e) :
    (ProcessPipedriveLead cfg env st payload).result = .ok () ∧
    (ProcessPipedriveLead cfg env st payload).effects.filter Effect.isStoreMapping =
      [Effect.storeMapping ("failed-" ++ toString env.now)
        { personName := person.name, phoneNumber := extractPhoneFromPerson person,
          leadTitle := payload.data.title, personID := payload.data.personID,
          timestamp := env.now }] ∧
    ("failed-" ++ toString env.now) ≠ "" ∧
    strStartsWith ("failed-" ++ toString env.now) "failed-" = true := by
  refine ⟨?_, ?_, ?_, ?_⟩
  · simp [ProcessPipedriveLead, hact, hpd, hrt, hperson, hphone, hfail]
  · simp [ProcessPipedriveLead, hact, hpd, hrt, hperson, hphone, hfail,
      Effect.isStoreMapping, List.filter]
  · exact strAppend_ne_empty _ _ (by decide)
  · exact strStartsWith_append _ _

/-- Witness for C4 at a concrete event whose call creation fails. -/
theorem processLead_callFailure_placeholder_witness :
    (ProcessPipedriveLead sampleCfg sampleLeadEnvCallFail emptyStore samplePayloadCreate).result =
      .ok () ∧
    (ProcessPipedriveLead sampleCfg sampleLeadEnvCallFail emptyStore
        samplePayloadCreate).effects.filter Effect.isStoreMapping =
      [Effect.storeMapping ("failed-" ++ toString (1700000000 : Nat))
        { personName := "Jane", phoneNumber := "+12125550100",
          leadTitle := "Big Deal", personID := 139, timestamp := 1700000000 }] ∧
    ("failed-" ++ toString (1700000000 : Nat)) ≠ "" ∧
    strStartsWith ("failed-" ++ toString (1700000000 : Nat)) "failed-" = true :=
  processLead_callFailure_placeholder sampleCfg sampleLeadEnvCallFail emptyStore
    samplePayloadCreate samplePersonJane "HTTP 500" rfl (by decide) (by decide) rfl
    (by decide) rfl

/-- C9: a lead webhook whose body has an empty `data.id` or a zero
`data.person_id` is answered with HTTP 400, `success = false`, and the
event processor is never invoked; a request passing validation whose
processing succeeds is answered with HTTP 200. -/
theorem leadHandler_validation_gate (cfg : Config) (env : LeadEnv)
    (st : CallMap) (payload : PipedriveLeadWebhookPayload) :
    ((payload.data.id = "" ∨ payload.data.personID = 0) →
      (PipedriveLeadWebhookHandler cfg env st payload).response.status = 400 ∧
      (PipedriveLeadWebhookHandler cfg env st payload).response.success = false ∧
      (PipedriveLeadWebhookHandler cfg env st payload).processed = none) ∧
    (¬ (payload.data.id = "" ∨ payload.data.personID = 0) →
      (ProcessPipedriveLead cfg env st payload).result = .ok () →
      (PipedriveLeadWebhookHandler cfg env st payload).response.status = 200) := by
  constructor
  · intro h
    simp [PipedriveLeadWebhookHandler, h]
  · intro h hok
    simp [PipedriveLeadWebhookHandler, h, hok]

/-- Witness for C9: a concrete invalid body is rejected with 400 before the
processor runs, and a concrete valid body whose processing succeeds gets
200. -/
theorem leadHandler_validation_gate_witness :
    ((PipedriveLeadWebhookHandler sampleCfg sampleLeadEnvOk emptyStore
        samplePayloadInvalid).response.status = 400 ∧
      (PipedriveLeadWebhookHandler sampleCfg sampleLeadEnvOk emptyStore
        samplePayloadInvalid).response.success = false ∧
      (PipedriveLeadWebhookHandler sampleCfg sampleLeadEnvOk emptyStore
        samplePayloadInvalid).processed = none) ∧
    (PipedriveLeadWebhookHandler sampleCfg sampleLeadEnvOk emptyStore
        samplePayloadCreate).response.status = 200 :=
  ⟨(leadHandler_validation_gate sampleCfg sampleLeadEnvOk emptyStore samplePayloadInvalid).1
      (Or.inl rfl),
    (leadHandler_validation_gate sampleCfg sampleLeadEnvOk emptyStore samplePayloadCreate).2
      (by decide) rfl⟩

theorem natDigitsRev_lt (n : Nat) : ∀ d ∈ natDigitsRev n, d < 10 := by
  induction n using Nat.strong_induction_on with
  | _ n ih =>
    match n with
    | 0 => simp [natDigitsRev]
    | m + 1 =>
      intro d hd
      simp only [natDigitsRev] at hd
      rcases List.mem_cons.mp hd with h | h
      · subst h; exact Nat.mod_lt _ (by decide)
      · exact ih ((m + 1) / 10) (Nat.div_lt_self (Nat.succ_pos m) (by decide)) d h

theorem natDigitsRev_foldr (n : Nat) :
    (natDigitsRev n).foldr (fun d a => 10 * a + d) 0 = n := by
  induction n using Nat.strong_induction_on with
  | _ n ih =>
    match n with
    | 0 => simp [natDigitsRev]
    | m + 1 =>
      simp only [natDigitsRev, List.foldr]
      rw [ih ((m + 1) / 10) (Nat.div_lt_self (Nat.succ_pos m) (by decide))]
      omega

theorem natDigitsRev_ne_nil (n : Nat) (h : n ≠ 0) : natDigitsRev n ≠ [] := by
  match n with
  | m + 1 => simp [natDigitsRev]

theorem digitChar_isDigit (d : Nat) (h : d < 10) : (Nat.digitChar d).isDigit = true := by
  interval_cases d <;> decide

theorem digitVal_digitChar (d : Nat) (h : d < 10) : digitVal (Nat.digitChar d) = d := by
  interval_cases d <;> decide

theorem foldr_digitVal_map (l : List Nat) (h : ∀ d ∈ l, d < 10) :
    l.foldr (fun d a => 10 * a + digitVal (Nat.digitChar d)) 0 =
      l.foldr (fun d a => 10 * a + d) 0 := by
  induction l with
  | nil => rfl
  | cons d ds ih =>
    simp only [List.foldr]
    rw [ih (fun x hx => h x (List.mem_cons_of_mem _ hx)),
      digitVal_digitChar d (h d (List.mem_cons_self _ _))]

theorem natToDecChars_ne_nil (n : Nat) : natToDecChars n ≠ [] := by
  by_cases h0 : n = 0
  · simp [natToDecChars, h0]
  · simp [natToDecChars, h0, natDigitsRev_ne_nil n h0]

theorem natToDecChars_all_digits (n : Nat) : ∀ c ∈ natToDecChars n, c.isDigit = true := by
  intro c hc
  by_cases h0 : n = 0
  · simp [natToDecChars, h0] at hc
    subst hc; decide
  · simp only [natToDecChars, h0, if_false, List.mem_reverse, List.mem_map] at hc
    obtain ⟨d, hd, rfl⟩ := hc
    exact digitChar_isDigit d (natDigitsRev_lt n d hd)

theorem parseNatChars_natToDecChars (n : Nat) : parseNatChars (natToDecChars n) = some n := by
  have hall : (natToDecChars n).all (fun c => c.isDigit) = true :=
    List.all_eq_true.mpr fun c hc => natToDecChars_all_digits n c hc
  rw [parseNatChars, if_pos ⟨natToDecChars_ne_nil n, hall⟩]
  by_cases h0 : n = 0
  · subst h0; decide
  · simp only [natToDecChars, h0, if_false]
    rw [List.foldl_reverse, List.foldr_map]
    rw [foldr_digitVal_map _ (natDigitsRev_lt n), natDigitsRev_foldr]

theorem atoi_formatInt (i : Int) : atoi (formatInt i) = some i := by
  cases i with
  | ofNat m =>
    have hne := natToDecChars_ne_nil m
    show atoi (String.mk (natToDecChars m)) = some (Int.ofNat m)
    rw [atoi]
    cases hL : natToDecChars m with
    | nil => exact absurd hL hne
    | cons c rest =>
      have hc : c.isDigit = true :=
        natToDecChars_all_digits m c (by rw [hL]; exact List.mem_cons_self _ _)
      have hcm : ¬ c = '-' := by
        intro h; rw [h] at hc; exact absurd hc (by decide)
      simp only [if_neg hcm]
      rw [← hL, parseNatChars_natToDecChars]
      rfl
  | negSucc m =>
    show atoi (String.mk ('-' :: natToDecChars (m + 1))) = some (Int.negSucc m)
    rw [atoi]
    simp only [if_pos rfl]
    rw [parseNatChars_natToDecChars]
    show some (-((m + 1 : Nat) : Int)) = some (Int.negSucc m)
    rw [Int.negSucc_eq]
    push_cast
    ring_nf

/-- C2: a `call_analyzed` event whose `call_id` resolves in the correlation
store produces exactly one completed (`done = 1`) activity request, carrying
the stored `callMapping.PersonID` as its contact identifier, and no
contact-creation request is issued for the event. -/
theorem analyzed_resolved_uses_stored_person (cfg : Config) (env : AnalyzedEnv)
    (st : CallMap) (payload : RetellCallAnalyzedPayload) (m : CallMapping)
    (hcfg : cfg.hasPipedriveConfig = true)
    (hm : getCallMapping st payload.call.callID = some m) :
    ((ProcessRetellCallAnalyzed cfg env st payload).effects.filter Effect.isPostActivity =
        [Effect.postActivity (resolvedActivityData env payload m)] ∧
      (resolvedActivityData env payload m).personID = m.personID ∧
      (resolvedActivityData env payload m).done = 1) ∧
    (ProcessRetellCallAnalyzed cfg env st payload).effects.filter Effect.isCreatePerson = [] := by
  refine ⟨⟨?_, rfl, rfl⟩, ?_⟩ <;>
  · cases har : env.activityResult with
    | error e =>
      simp [ProcessRetellCallAnalyzed, hcfg, hm, har, Effect.isPostActivity,
        Effect.isCreatePerson, List.filter]
    | ok ar =>
      by_cases hs : ar.success <;>
        simp [ProcessRetellCallAnalyzed, hcfg, hm, har, hs, Effect.isPostActivity,
          Effect.isCreatePerson, List.filter]

/-- Witness for C2 at a concrete resolved call. -/
theorem analyzed_resolved_uses_stored_person_witness :
    ((ProcessRetellCallAnalyzed sampleCfg sampleAnalyzedEnv sampleStoreWithMapping
          sampleAnalyzedPayload).effects.filter Effect.isPostActivity =
        [Effect.postActivity (resolvedActivityData sampleAnalyzedEnv sampleAnalyzedPayload
          { personName := "Jane", phoneNumber := "+12125550100", leadTitle := "Big Deal",
            personID := 139, timestamp := 1700000000 })] ∧
      (resolvedActivityData sampleAnalyzedEnv sampleAnalyzedPayload
          { personName := "Jane", phoneNumber := "+12125550100", leadTitle := "Big Deal",
            personID := 139, timestamp := 1700000000 }).personID = (139 : Int) ∧
      (resolvedActivityData sampleAnalyzedEnv sampleAnalyzedPayload
          { personName := "Jane", phoneNumber := "+12125550100", leadTitle := "Big Deal",
            personID := 139, timestamp := 1700000000 }).done = 1) ∧
    (ProcessRetellCallAnalyzed sampleCfg sampleAnalyzedEnv sampleStoreWithMapping
        sampleAnalyzedPayload).effects.filter Effect.isCreatePerson = [] :=
  analyzed_resolved_uses_stored_person sampleCfg sampleAnalyzedEnv sampleStoreWithMapping
    sampleAnalyzedPayload
    { personName := "Jane", phoneNumber := "+12125550100", leadTitle := "Big Deal",
      personID := 139, timestamp := 1700000000 }
    (by decide) rfl

theorem createUnknown_ok_shape (env : PhoneLookupEnv) (phone : String) (c : Contact)
    (h : (createUnknownContact env phone).1 = Except.ok c) :
    ∃ p : PipedrivePerson, c = contactOfPerson p := by
  simp only [createUnknownContact] at h
  split at h
  · simp at h
  · split at h <;> ((try simp at h); (try exact ⟨_, h.symm⟩))

theorem findOrCreate_ok_shape (cfg : Config) (env : PhoneLookupEnv) (phone : String)
    (c : Contact) (hcfg : cfg.hasPipedriveConfig = true)
    (h : (FindOrCreateContactByPhone cfg env phone).1 = Except.ok c) :
    ∃ p : PipedrivePerson, c = contactOfPerson p := by
  simp only [FindOrCreateContactByPhone, hcfg, if_true] at h
  split at h
  · simp at h
  · split at h
    · simp at h
      exact ⟨_, h.symm⟩
    all_goals exact createUnknown_ok_shape env phone c h

theorem createUnknown_search_mem (env : PhoneLookupEnv) (phone : String) :
    Effect.searchPersonsByPhone phone ∈ (createUnknownContact env phone).2 := by
  simp only [createUnknownContact]
  split
  · simp
  · split <;> simp

theorem findOrCreate_search_mem (cfg : Config) (env : PhoneLookupEnv) (phone : String)
    (hcfg : cfg.hasPipedriveConfig = true) :
    Effect.searchPersonsByPhone phone ∈ (FindOrCreateContactByPhone cfg env phone).2 := by
  simp only [FindOrCreateContactByPhone, hcfg, if_true]
  split
  · simp
  · split
    · simp
    all_goals exact createUnknown_search_mem env phone

/-- C3: a `call_analyzed` event whose `call_id` misses the correlation
store takes the fallback path: whenever the generic-contact lookup
succeeds - whether by finding an existing contact or by creating the
`Unknown Caller` one - and the fallback activity request goes through, the
processor issues the `Unknown` phone search, posts a completed (`done = 1`)
minimal fallback activity for the resolved contact id, and returns success
rather than an error. -/
theorem analyzed_storeMiss_fallback_succeeds (cfg : Config) (env : AnalyzedEnv)
    (st : CallMap) (payload : RetellCallAnalyzedPayload) (contact : Contact)
    (hcfg : cfg.hasPipedriveConfig = true)
    (hmiss : getCallMapping st payload.call.callID = none)
    (hfind : (FindOrCreateContactByPhone cfg env.lookup "Unknown").1 = Except.ok contact)
    (hreq : env.fallbackActivityReqOk = true) :
    (ProcessRetellCallAnalyzed cfg env st payload).result = .ok () ∧
    Effect.searchPersonsByPhone "Unknown" ∈
      (ProcessRetellCallAnalyzed cfg env st payload).effects ∧
    ∃ personID : Int, atoi contact.id = some personID ∧
      Effect.postActivity (fallbackActivityData env payload personID) ∈
        (ProcessRetellCallAnalyzed cfg env st payload).effects ∧
      (fallbackActivityData env payload personID).done = 1 := by
  obtain ⟨p, rfl⟩ := findOrCreate_ok_shape cfg env.lookup "Unknown" contact hcfg hfind
  have hatoi : atoi (contactOfPerson p).id = some p.id := by
    simpa [contactOfPerson] using atoi_formatInt p.id
  have hmem := findOrCreate_search_mem cfg env.lookup "Unknown" hcfg
  cases hf : FindOrCreateContactByPhone cfg env.lookup "Unknown" with
  | mk r effs =>
    rw [hf] at hfind hmem
    have hr : r = Except.ok (contactOfPerson p) := hfind
    subst hr
    have hproc : ProcessRetellCallAnalyzed cfg env st payload =
        { result := .ok (), store := st,
          effects := effs ++
            [Effect.updatePersonCallData p.id payload.call.transcript
              (formatDuration payload.call.durationMs) env.startDate,
             Effect.postActivity (fallbackActivityData env payload p.id)] } := by
      simp [ProcessRetellCallAnalyzed, hcfg, hmiss, hf, hatoi, hreq]
    rw [hproc]
    exact ⟨rfl, List.mem_append_left _ hmem, p.id, hatoi, by simp, rfl⟩

/-- Witness for C3 at a concrete unresolved call whose fallback search
matches nothing, so the lookup succeeds through the created
`Unknown Caller` contact. -/
theorem analyzed_storeMiss_fallback_succeeds_witness :
    (ProcessRetellCallAnalyzed sampleCfg sampleAnalyzedEnvEmptySearch emptyStore
        sampleAnalyzedPayload).result = .ok () ∧
    Effect.searchPersonsByPhone "Unknown" ∈
      (ProcessRetellCallAnalyzed sampleCfg sampleAnalyzedEnvEmptySearch emptyStore
        sampleAnalyzedPayload).effects ∧
    ∃ personID : Int, atoi (contactOfPerson samplePersonJane).id = some personID ∧
      Effect.postActivity (fallbackActivityData sampleAnalyzedEnvEmptySearch
          sampleAnalyzedPayload personID) ∈
        (ProcessRetellCallAnalyzed sampleCfg sampleAnalyzedEnvEmptySearch emptyStore
          sampleAnalyzedPayload).effects ∧
      (fallbackActivityData sampleAnalyzedEnvEmptySearch sampleAnalyzedPayload
        personID).done = 1 :=
  analyzed_storeMiss_fallback_succeeds sampleCfg sampleAnalyzedEnvEmptySearch emptyStore
    sampleAnalyzedPayload (contactOfPerson samplePersonJane) (by decide) rfl rfl rfl

/-- C10: on a correlation-store miss the fallback contact lookup uses the
constant string `Unknown` as the phone search term, whatever the payload
holds, and when the search matches nothing it issues a contact-creation
request named `Unknown Caller` whose phone value is the literal string
`Unknown`. -/
theorem analyzed_fallback_unknown_constants (cfg : Config) (env : AnalyzedEnv)
    (st : CallMap) (payload : RetellCallAnalyzedPayload)
    (sr : PipedrivePersonSearchResponse)
    (hcfg : cfg.hasPipedriveConfig = true)
    (hmiss : getCallMapping st payload.call.callID = none)
    (hsearch : env.lookup.searchResult = .ok sr)
    (hnone : sr.items = []) :
    Effect.searchPersonsByPhone "Unknown" ∈
      (ProcessRetellCallAnalyzed cfg env st payload).effects ∧
    Effect.createPerson "Unknown Caller" ["Unknown"] ∈
      (ProcessRetellCallAnalyzed cfg env st payload).effects := by
  have hfind : FindOrCreateContactByPhone cfg env.lookup "Unknown" =
      createUnknownContact env.lookup "Unknown" := by
    simp [FindOrCreateContactByPhone, hcfg, hsearch, hnone]
  cases hcr : env.lookup.createResult with
  | error e =>
    constructor <;>
      simp [ProcessRetellCallAnalyzed, hcfg, hmiss, hfind, createUnknownContact, hcr]
  | ok cr =>
    obtain ⟨csucc, cdata⟩ := cr
    cases cdata with
    | none =>
      constructor <;>
        simp [ProcessRetellCallAnalyzed, hcfg, hmiss, hfind, createUnknownContact, hcr]
    | some person =>
      cases csucc with
      | false =>
        constructor <;>
          simp [ProcessRetellCallAnalyzed, hcfg, hmiss, hfind, createUnknownContact, hcr]
      | true =>
        have hatoi : atoi (contactOfPerson person).id = some person.id := by
          simpa [contactOfPerson] using atoi_formatInt person.id
        by_cases hreq : env.fallbackActivityReqOk <;>
          (constructor <;>
            simp [ProcessRetellCallAnalyzed, hcfg, hmiss, hfind, createUnknownContact,
              hcr, hatoi, hreq])

/-- Witness for C10 at a concrete unresolved call whose fallback search
matches nothing. -/
theorem analyzed_fallback_unknown_constants_witness :
    Effect.searchPersonsByPhone "Unknown" ∈
      (ProcessRetellCallAnalyzed sampleCfg sampleAnalyzedEnvEmptySearch emptyStore
        sampleAnalyzedPayload).effects ∧
    Effect.createPerson "Unknown Caller" ["Unknown"] ∈
      (ProcessRetellCallAnalyzed sampleCfg sampleAnalyzedEnvEmptySearch emptyStore
        sampleAnalyzedPayload).effects :=
  analyzed_fallback_unknown_constants sampleCfg sampleAnalyzedEnvEmptySearch emptyStore
    sampleAnalyzedPayload { success := true, items := [] } (by decide) rfl rfl rfl
